import Mathlib

/-!
# Verification of the zabava-server points ledger and redemption handlers

This file gives a shallow embedding, in Lean 4, of the loyalty-points core of
the `zabava-server` repository: the visit-confirmation handlers
(`api/partner/mark-visited.js` and the partner visit-update route), the
registration handler (`api/register.js`), the balance computation
(`api/bonus/user-points-fixed.js`), the reward-redemption handler
(`api/bonus/redeem-reward`), and the partner redemption-processing handler
(`api/partner/process-redemption`).

Modelling conventions, uniform across the file:

* The Vercel KV store is modelled as a structure of typed total maps
  (`String → Option _` for hashes, `String → List _` for sets and lists).
  `hgetall` on a missing/empty hash yields `none`; `hset` merges fields into
  the stored hash, as Redis `HSET` does.
* Stored hash fields keep their JavaScript string typing where the code
  compares them as strings (e.g. the `visited` flag is the string `"true"`).
* JSON payloads attached to a record are modelled as an already-parsed
  structure (`Payload`); `JSON.parse`/`JSON.stringify` round-trips are
  abstracted away.  Numeric payload fields are modelled as parsed JSON
  numbers (`Option Int`, `none` = absent or unparsable); the JavaScript
  truthiness of such a number is `≠ 0`, and `parseInt x || d` is
  `none → d, some 0 → d, some v → v`.
* Timestamps are opaque strings except where the code compares them as
  dates (voucher expiry), where they are `Int` instants.
* Nondeterministic quantities (`new Date()`, generated ids) are passed to
  the embedded handlers as explicit arguments.
-/

/-- JavaScript `s.toLowerCase()`.  (Core `String.toLower` is defined by
well-founded recursion and does not reduce in the kernel, so string case
mapping is done through the character list.) -/
def jsToLower (s : String) : String := String.mk (s.data.map Char.toLower)

/-- JavaScript `s.toUpperCase()`. -/
def jsToUpper (s : String) : String := String.mk (s.data.map Char.toUpper)

/-- JavaScript `s.trim()`. -/
def jsTrim (s : String) : String :=
  String.mk (((s.data.dropWhile Char.isWhitespace).reverse.dropWhile
    Char.isWhitespace).reverse)

/-- JavaScript `hay.includes(needle)` (substring containment) on the
character lists. -/
def hasSubList (needle : List Char) : List Char → Bool
  | [] => needle.isEmpty
  | c :: rest => needle.isPrefixOf (c :: rest) || hasSubList needle rest

/-- JavaScript `hay.includes(needle)` on strings. -/
def hasSubStr (hay needle : String) : Bool :=
  hasSubList needle.data hay.data

/-- JavaScript truthiness of a parsed JSON number: `undefined`/`NaN` and `0`
are falsy, every other number is truthy. -/
def truthyNum (v : Option Int) : Bool :=
  match v with
  | none => false
  | some n => n != 0

/-- JavaScript truthiness of an optional string field: `undefined` and the
empty string are falsy. -/
def truthyStr (v : Option String) : Bool :=
  match v with
  | none => false
  | some s => s != ""

/-- JavaScript `a || b` for an optional string `a` and a string default `b`. -/
def orStr (a : Option String) (b : String) : String :=
  match a with
  | none => b
  | some s => if s = "" then b else s

/-- JavaScript `parseInt(v) || d` on a parsed JSON number (`NaN` and `0` both
fall back to the default). -/
def parseIntOr (v : Option Int) (d : Int) : Int :=
  match v with
  | none => d
  | some n => if n = 0 then d else n

/-- The parsed booking payload attached to a QR registration record
(`JSON.parse(record.payload)`).  Fields are exactly the ones the handlers
read; all are optional, as in the source JSON. -/
structure Payload where
  estimatedPoints : Option Int := none
  totalPrice : Option Int := none
  ticket : Option String := none
  numPeople : Option Int := none
  Transport : Option String := none
  Bus_Rental : Option String := none
  selectedBus : Option String := none
  Categories : Option String := none
  partner_id : Option String := none
  partnerId : Option String := none
  attractionName : Option String := none
  deriving Repr, DecidableEq

/-- Effective party size in `api/partner/mark-visited.js`:
`parseInt(payload.numPeople) || 1`. -/
def numPeopleEff (p : Payload) : Int :=
  parseIntOr p.numPeople 1

/-- Effective ticket type: `(payload.ticket || 'Standard').toLowerCase()`. -/
def ticketEff (p : Payload) : String :=
  jsToLower (orStr p.ticket "Standard")

/-- Transport bonus condition in `api/partner/mark-visited.js`:
`payload.Transport === 'Yes' || payload.Bus_Rental`. -/
def transportBonus (p : Payload) : Bool :=
  p.Transport == some "Yes" || truthyStr p.Bus_Rental

/-- The pre-bonus part of the points computation of the visit-confirmation
handler (`api/partner/mark-visited.js`): explicit `estimatedPoints` first,
else `floor(totalPrice / 100)` for a positive price, else the per-ticket
table. -/
def computePointsBase (p : Payload) : Int :=
  if truthyNum p.estimatedPoints then
    p.estimatedPoints.getD 0
  else if parseIntOr p.totalPrice 0 > 0 then
    Int.fdiv (parseIntOr p.totalPrice 0) 100
  else
    match ticketEff p with
    | "vip" => 50 * numPeopleEff p
    | "family" => 30 * numPeopleEff p
    | "group" => 20 * numPeopleEff p
    | _ => 10 * numPeopleEff p

/-- Points computation of the visit-confirmation handler
(`api/partner/mark-visited.js`, the body of the `try` block that computes
`pointsEarned` from the parsed payload): the base value plus the flat `+5`
transport bonus. -/
def computePoints (p : Payload) : Int :=
  if transportBonus p then computePointsBase p + 5 else computePointsBase p

/-- The spec's party-size rule (§4.1): default to 1 when absent or
non-positive.  This and the next three definitions are written from the
spec's words, for comparison with `computePoints` (which is written from the
source). -/
def specPartySize (p : Payload) : Int :=
  match p.numPeople with
  | none => 1
  | some k => if k ≤ 0 then 1 else k

/-- The spec's ticket table at the spec's party size. -/
def specTicketTable (p : Payload) : Int :=
  match ticketEff p with
  | "vip" => 50 * specPartySize p
  | "family" => 30 * specPartySize p
  | "group" => 20 * specPartySize p
  | _ => 10 * specPartySize p

/-- The spec's §4.1 precedence, pre-bonus: an explicit precomputed point
value, when present, is used verbatim; else a positive total price yields
`floor(price / 100)`; else the ticket table applies. -/
def specPointsBase (p : Payload) : Int :=
  match p.estimatedPoints with
  | some v => v
  | none =>
    match p.totalPrice with
    | some price => if price > 0 then Int.fdiv price 100 else specTicketTable p
    | none => specTicketTable p

/-- The spec's §4.1 policy: base precedence plus the flat `+5` transport
bonus regardless of branch. -/
def specPointsPolicy (p : Payload) : Int :=
  if transportBonus p then specPointsBase p + 5 else specPointsBase p

/-- A stored QR registration record (`hgetall` of `qr:email:<email>` or of a
per-visit key).  String fields default to `""` (absent hash field), optional
numeric fields to `none`. -/
structure QrRecord where
  email : String := ""
  partnerId : Option String := none
  partner_id : Option String := none
  visited : String := ""
  visitedAt : String := ""
  status : String := ""
  used : String := ""
  scannedAt : String := ""
  pointsAwarded : Option Int := none
  payload : Option Payload := none
  createdAt : String := ""
  visitNotes : String := ""
  lastUpdated : String := ""
  redemptionCode : Option String := none
  hasRedemption : String := ""
  redemptionReward : String := ""
  redemptionValue : Int := 0
  redemptionDetails : Option (String × Int × String) := none
  deriving Repr, DecidableEq

/-- An entry of the per-user points history list
(`points:history:<email>`). -/
structure HistoryEntry where
  type : String := ""
  points : Int := 0
  partnerId : String := ""
  partnerName : String := ""
  timestamp : String := ""
  ticketType : String := ""
  visitId : String := ""
  rewardId : String := ""
  rewardName : String := ""
  redemptionCode : String := ""
  deriving Repr, DecidableEq

/-- A reward hash (`reward:<id>`); `availableFor` is the parsed JSON list. -/
structure Reward where
  name : String := ""
  description : String := ""
  status : String := ""
  pointsCost : Option Int := none
  availableFor : List String := []
  stock : Option Int := none
  redemptionInstructions : Option String := none
  deriving Repr, DecidableEq

/-- A redemption (voucher) hash (`redemption:<code>`).  `expiresAt` is an
instant (the code compares it as a `Date`); the other timestamps are opaque
strings. -/
structure Redemption where
  id : String := ""
  email : String := ""
  rewardId : String := ""
  rewardName : String := ""
  pointsSpent : Int := 0
  redeemedAt : String := ""
  status : String := ""
  expiresAt : Int := 0
  appliedToBooking : Option String := none
  appliedAt : String := ""
  partnerId : Option String := none
  processedBy : String := ""
  processedAt : String := ""
  rejectedBy : String := ""
  rejectedAt : String := ""
  usedInBooking : Option String := none
  usedAt : String := ""
  deriving Repr, DecidableEq

/-- An item of the chronological visit list (`visits:chrono:<email>`); only
its `qrKey` field is read. -/
structure ChronoItem where
  qrKey : Option String := none
  partnerId : String := ""
  deriving Repr, DecidableEq

/-- A visit-confirmation list entry pushed by `mark-visited` onto
`visits:confirmed:<partnerId>` and `visits:user:<email>`. -/
structure VisitConf where
  email : String := ""
  partnerId : String := ""
  visitDate : String := ""
  pointsAwarded : Int := 0
  ticketType : String := ""
  numPeople : Int := 1
  totalPrice : Int := 0
  transport : String := ""
  categories : String := ""
  confirmationId : String := ""
  deriving Repr, DecidableEq

/-- The key-value store, as a structure of typed total maps; each field
models one family of Redis keys. -/
structure KV where
  qr : String → Option QrRecord := fun _ => none
  redemptions : String → Option Redemption := fun _ => none
  rewards : String → Option Reward := fun _ => none
  partnerMeta : String → Option String := fun _ => none
  sets : String → List String := fun _ => []
  history : String → List HistoryEntry := fun _ => []
  redemList : String → List Redemption := fun _ => []
  chrono : String → List ChronoItem := fun _ => []
  visitLists : String → List VisitConf := fun _ => []

/-- Pointwise update of a keyed map (a `set`/`hset`/`lpush` result). -/
def upd {α : Type} (f : String → α) (k : String) (v : α) : String → α :=
  fun x => if x = k then v else f x

/-- Redis `SADD`: append the member if it is not already present. -/
def sadd (f : String → List String) (k v : String) : String → List String :=
  upd f k (if (f k).contains v then f k else f k ++ [v])

/-- JavaScript `a || b` on two strings where the empty string is falsy. -/
def jsOrS (a b : String) : String := if a = "" then b else a

/-- The partner id a QR record is tied to:
`(record.partnerId || record.partner_id || '').toLowerCase()`. -/
def recPid (r : QrRecord) : String :=
  jsToLower (orStr r.partnerId (orStr r.partner_id ""))

/-- The `getPartnerName` helper of `mark-visited.js`: the `name` field of
`partner:meta:<partnerId>` if present, else the upper-cased partner id. -/
def getPartnerName (kv : KV) (partnerId : String) : String :=
  match kv.partnerMeta ("partner:meta:" ++ partnerId) with
  | some name => name
  | none => jsToUpper partnerId

/-- Body of the partner loop of `getUserTotalPoints`: if the email is in
this partner's member set, re-read the single `qr:email:<email>` record and
add its `pointsAwarded` if visited. -/
def partnerF (kv : KV) (email : String) (acc : Int) (partnerId : String) : Int :=
  if (kv.sets ("partner:" ++ partnerId)).contains email then
    match kv.qr ("qr:email:" ++ email) with
    | some record =>
      if record.visited = "true" then acc + parseIntOr record.pointsAwarded 0
      else acc
    | none => acc
  else acc

/-- Fold step of `getUserTotalPoints` over the points history: add `earned`
entries, subtract `redemption` entries. -/
def histF (acc : Int) (entry : HistoryEntry) : Int :=
  if entry.type = "earned" then acc + entry.points
  else if entry.type = "redemption" then acc - entry.points
  else acc

/-- The points-history part of `getUserTotalPoints` on a list. -/
def historySumL (l : List HistoryEntry) : Int := l.foldl histF 0

/-- The `getUserTotalPoints` helper of `mark-visited.js`: for each partner in the
`partners` set whose member set contains the email, re-read the single
`qr:email:<email>` record and add its `pointsAwarded` if visited; then add
every `earned` history entry and subtract every `redemption` entry. -/
def getUserTotalPoints (kv : KV) (email : String) : Int :=
  let fromPartners := (kv.sets "partners").foldl (partnerF kv email) 0
  let fromHistory :=
    (kv.history ("points:history:" ++ email)).foldl histF 0
  fromPartners + fromHistory

/-- The per-iteration record contribution of `getUserTotalPoints`: the
single `qr:email:<email>` record's `pointsAwarded` if it is visited, else
0. -/
def recPointsOf (kv : KV) (email : String) : Int :=
  match kv.qr ("qr:email:" ++ email) with
  | some record =>
    if record.visited = "true" then parseIntOr record.pointsAwarded 0 else 0
  | none => 0

/-- The number of partner member sets containing the email. -/
def memberCount (kv : KV) (email : String) : Nat :=
  ((kv.sets "partners").filter
    (fun p => (kv.sets ("partner:" ++ p)).contains email)).length

/-- Result of the `mark-visited` handler (the JSON responses it can
return). -/
inductive MVResult where
  | notFound
  | partnerMismatch (expected found : String)
  | alreadyVisited (visitedAt : String)
  | success (email partnerId visitedAt : String) (pointsAwarded totalPointsNow : Int)
  deriving Repr, DecidableEq

/-- The `POST /api/partner/mark-visited` handler
(`src/server/routes/partner/mark-visited.js`), after method/schema
validation.  `visitDate` and `notes` are the optional request fields;
`nowIso` is `new Date().toISOString()` and `confId` the generated
confirmation id. -/
def markVisited (kv : KV) (email partnerId : String)
    (visitDate notes : Option String) (nowIso confId : String) :
    MVResult × KV :=
  let normalizedEmail := jsToLower (jsTrim email)
  let normalizedPartnerId := jsToLower (jsTrim partnerId)
  let recordKey := "qr:email:" ++ normalizedEmail
  match kv.qr recordKey with
  | none => (.notFound, kv)
  | some record =>
    let recordPartnerId := recPid record
    if recordPartnerId ≠ normalizedPartnerId then
      (.partnerMismatch normalizedPartnerId recordPartnerId, kv)
    else if record.visited = "true" then
      (.alreadyVisited record.visitedAt, kv)
    else
      let payload := record.payload.getD {}
      let pointsEarned := computePoints payload
      let now := visitDate.getD nowIso
      let updatedRecord := { record with
        visited := "true"
        visitedAt := now
        pointsAwarded := some pointsEarned
        visitNotes := notes.getD ""
        lastUpdated := now }
      let kv1 := { kv with qr := upd kv.qr recordKey (some updatedRecord) }
      let historyEntry : HistoryEntry := {
        type := "earned"
        points := pointsEarned
        partnerId := normalizedPartnerId
        partnerName := getPartnerName kv normalizedPartnerId
        timestamp := now
        ticketType := orStr payload.ticket "Standard"
        visitId := recordKey }
      let historyKey := "points:history:" ++ normalizedEmail
      let kv2 := { kv1 with
        history := upd kv1.history historyKey (historyEntry :: kv1.history historyKey) }
      let visitConfirmation : VisitConf := {
        email := normalizedEmail
        partnerId := normalizedPartnerId
        visitDate := now
        pointsAwarded := pointsEarned
        ticketType := orStr payload.ticket "Standard"
        numPeople := parseIntOr payload.numPeople 1
        totalPrice := parseIntOr payload.totalPrice 0
        transport := orStr payload.Transport "No"
        categories := orStr payload.Categories ""
        confirmationId := confId }
      let confirmedKey := "visits:confirmed:" ++ normalizedPartnerId
      let userKey := "visits:user:" ++ normalizedEmail
      let kv3 := { kv2 with
        visitLists :=
          upd (upd kv2.visitLists confirmedKey
                (visitConfirmation :: kv2.visitLists confirmedKey))
            userKey (visitConfirmation :: upd kv2.visitLists confirmedKey
                (visitConfirmation :: kv2.visitLists confirmedKey) userKey) }
      (.success normalizedEmail normalizedPartnerId now pointsEarned
        (getUserTotalPoints kv3 normalizedEmail), kv3)

/-- Result of the partner visit-update route (`src/unnamed/part_003`). -/
inductive PVResult where
  | notFoundSub
  | notMember
  | alreadyVisited (email partnerId visitedAt : String)
  | ok (email partnerId visitedAt : String)
  deriving Repr, DecidableEq

/-- The partner visit-update handler of `src/unnamed/part_003`, after auth
and schema validation: marks `visited = "true"` on the user's QR record but
awards no points; if the record is already visited it returns the stored
data unchanged. -/
def partnerVisitUpdate (kv : KV) (emailBody partnerIdBody : String)
    (nowIso : String) : PVResult × KV :=
  let partnerId := jsToLower partnerIdBody
  let email := jsToLower (jsTrim emailBody)
  let key := "qr:email:" ++ email
  match kv.qr key with
  | none => (.notFoundSub, kv)
  | some record =>
    if ¬ (kv.sets ("partner:" ++ partnerId)).contains email then
      (.notMember, kv)
    else if jsToLower record.visited = "true" then
      (.alreadyVisited email partnerId
        (jsOrS record.visitedAt (jsOrS record.scannedAt record.createdAt)), kv)
    else
      let kv1 := { kv with
        qr := upd kv.qr key (some { record with visited := "true", visitedAt := nowIso }) }
      (.ok email partnerId nowIso, kv1)

/-- Repetition, `n`-fold, of the same `mark-visited` call (retried webhook). -/
def iterConfirm (email partnerId : String) (nowIso confId : String) :
    Nat → KV → KV
  | 0, kv => kv
  | n + 1, kv =>
    iterConfirm email partnerId nowIso confId n
      (markVisited kv email partnerId none none nowIso confId).2

/-- Number of `earned` entries in the user's points history. -/
def earnedCount (kv : KV) (email : String) : Nat :=
  ((kv.history ("points:history:" ++ email)).filter (fun e => e.type = "earned")).length

/-- The `derivePointsFromRecord` helper of the redeem-reward handler
(`src/unnamed/part_005`): stored `pointsAwarded` first, then the payload's
`estimatedPoints`, then a truthy `totalPrice` (note: truthiness, not
positivity), then the ticket table; no transport bonus. -/
def derivePointsFromRecord (record : QrRecord) (payload : Payload) : Int :=
  if truthyNum record.pointsAwarded then record.pointsAwarded.getD 0
  else if truthyNum payload.estimatedPoints then payload.estimatedPoints.getD 0
  else if truthyNum payload.totalPrice then Int.fdiv (payload.totalPrice.getD 0) 100
  else
    let numPeople := parseIntOr payload.numPeople 1
    match ticketEff payload with
    | "vip" => 50 * numPeople
    | "family" => 30 * numPeople
    | "group" => 20 * numPeople
    | _ => 10 * numPeople

/-- The `isVisitedRecord` helper of the redeem-reward handler
(`src/unnamed/part_005`).  (The `record.visited === true` boolean case is
unrepresentable in the string-typed `visited` field.) -/
def isVisitedRecord (r : QrRecord) : Bool :=
  r.visited == "true" || r.status == "Visited" || r.status == "visited" ||
    r.visitedAt != "" || (r.used == "true" && r.scannedAt != "")

/-- Visited test of `api/bonus/user-points-fixed.js` (step 4). -/
def isVisitedFixed (r : QrRecord) : Bool :=
  r.visited == "true" || r.status == "Visited" || r.status == "visited" ||
    r.visitedAt != ""

/-- Per-visit points of `api/bonus/user-points-fixed.js` (step 4, lines
288-316), computed only for visited records: stored `pointsAwarded`, else
`estimatedPoints`, else truthy `totalPrice`, else the ticket table (with its
extra `adult → 11` case), plus the transport bonus (which here also accepts
`selectedBus`). -/
def pointsFixed (record : QrRecord) (payload : Payload) : Int :=
  let base : Int :=
    if truthyNum record.pointsAwarded then record.pointsAwarded.getD 0
    else if truthyNum payload.estimatedPoints then payload.estimatedPoints.getD 0
    else if truthyNum payload.totalPrice then Int.fdiv (payload.totalPrice.getD 0) 100
    else
      let numPeople := parseIntOr payload.numPeople 1
      match ticketEff payload with
      | "vip" => 50 * numPeople
      | "family" => 30 * numPeople
      | "group" => 20 * numPeople
      | "adult" => 11
      | _ => 10 * numPeople
  if payload.Transport == some "Yes" || truthyStr payload.Bus_Rental ||
      truthyStr payload.selectedBus then base + 5
  else base

/-- The body of a registration request minus `email`/`redemptionCode` (the
`rest` object of `api/register.js`): the five partner-key candidates scanned
by `extractPartnerId`, plus the booking payload that is stringified into the
record.  (The nested `source.data` re-scan of `extractPartnerId` is
subsumed by modelling `rest` as already parsed.) -/
structure RegBody where
  partner_id : Option String := none
  partner : Option String := none
  partnerId : Option String := none
  partnerID : Option String := none
  PartnerID : Option String := none
  pay : Payload := {}
  deriving Repr, DecidableEq

/-- The `extractPartnerId` helper of `api/register.js`: the first truthy candidate among
`partner_id`, `partner`, `partnerId`, `partnerID`, `PartnerID` (else
`""`). -/
def extractPartnerId (b : RegBody) : String :=
  orStr b.partner_id (orStr b.partner (orStr b.partnerId
    (orStr b.partnerID (orStr b.PartnerID ""))))

/-- Result of the registration handler (`api/register.js`). -/
inductive RegResult where
  | emailRequired
  | invalidEmail
  | alreadyUsedCode (code : String)
  | expiredCode (code : String)
  | wrongUserCode (code : String)
  | invalidCode (code : String)
  | ok (email key : String) (redemptionApplied : Bool)
  deriving Repr, DecidableEq

/-- Tail of `api/register.js` shared by all non-error paths: the second
redemption-code block (lines 183-204, which re-reads the possibly already
updated redemption hash), the partner set updates, and the final
`kv.hset(key, record)` merge - which unconditionally writes
`visited = 'false'` and `visitedAt = ''` over whatever the hash held.
`redFields` carries `(code, rewardName, pointsSpent)` when the first block
applied the code. -/
def registerFinish (kv : KV) (normalizedEmail key : String)
    (redemptionCode : Option String) (body : RegBody)
    (nowInt : Int) (nowIso : String)
    (redFields : Option (String × String × Int)) : RegResult × KV :=
  let b2 :=
    match redemptionCode with
    | some code =>
      match kv.redemptions ("redemption:" ++ code) with
      | some d =>
        if d.email = normalizedEmail ∧ nowInt < d.expiresAt ∧ d.status = "pending" then
          some (code, d)
        else none
      | none => none
    | none => none
  let kv2 :=
    match b2 with
    | some (code, d) =>
      let d2 := { d with status := "approved", usedInBooking := some key, usedAt := nowIso }
      { kv with redemptions := upd kv.redemptions ("redemption:" ++ code) (some d2) }
    | none => kv
  let partnerKey := extractPartnerId body
  let partnerField : Option String :=
    if partnerKey ≠ "" then some (jsToLower (jsTrim partnerKey)) else none
  let kv3 :=
    match partnerField with
    | some npk =>
      let sets3 := sadd (sadd kv2.sets ("partner:" ++ npk) normalizedEmail) "partners" npk
      { kv2 with sets := sets3 }
    | none => kv2
  let oldRec := (kv3.qr key).getD {}
  let baseRec := { oldRec with
    email := normalizedEmail
    used := "false"
    payload := some body.pay
    createdAt := nowIso
    visited := "false"
    visitedAt := "" }
  let recA :=
    match redFields with
    | some (code, rname, pval) => { baseRec with
        redemptionCode := some code
        hasRedemption := "true"
        redemptionReward := rname
        redemptionValue := pval }
    | none => baseRec
  let recB :=
    match b2 with
    | some (code, d) => { recA with
        redemptionCode := some code
        redemptionDetails := some (d.rewardName, d.pointsSpent, d.redeemedAt) }
    | none => recA
  let finalRec :=
    match partnerField with
    | some npk => { recB with partnerId := some npk }
    | none => recB
  (.ok normalizedEmail key redFields.isSome,
    { kv3 with qr := upd kv3.qr key (some finalRec) })

/-- The `POST /api/register` handler (`src/server/routes/register.js`):
email validation, the redemption-code block (apply / already-used / expired
/ wrong-user / invalid), then `registerFinish`.  `nowInt` is the `Date`
comparison instant and `nowIso` the stored `createdAtIso`. -/
def registerHandler (kv : KV) (email : String) (redemptionCode : Option String)
    (body : RegBody) (nowInt : Int) (nowIso : String) : RegResult × KV :=
  if email = "" then (.emailRequired, kv)
  else
    let normalizedEmail := jsToLower (jsTrim email)
    if ¬ normalizedEmail.data.contains '@' then (.invalidEmail, kv)
    else
      let key := "qr:email:" ++ normalizedEmail
      match redemptionCode with
      | some code =>
        let rkey := "redemption:" ++ code
        match kv.redemptions rkey with
        | some d =>
          if d.email = normalizedEmail then
            if nowInt < d.expiresAt ∧ d.status = "pending" then
              let d1 := { d with
                status := "applied"
                appliedToBooking := some key
                appliedAt := nowIso
                partnerId := some (orStr body.partner_id (orStr body.partnerId "")) }
              let kv1 := { kv with redemptions := upd kv.redemptions rkey (some d1) }
              registerFinish kv1 normalizedEmail key redemptionCode body nowInt nowIso
                (some (code, d.rewardName, d.pointsSpent))
            else if d.status = "used" then (.alreadyUsedCode code, kv)
            else if d.expiresAt ≤ nowInt then (.expiredCode code, kv)
            else registerFinish kv normalizedEmail key redemptionCode body nowInt nowIso none
          else (.wrongUserCode code, kv)
        | none => (.invalidCode code, kv)
      | none => registerFinish kv normalizedEmail key redemptionCode body nowInt nowIso none

/-- Redis `hset` of a whole redemption hash. -/
def setRedemption (kv : KV) (key : String) (d : Redemption) : KV :=
  let f := upd kv.redemptions key (some d)
  { kv with redemptions := f }

/-- Result of the partner process-redemption handler
(`src/unnamed/part_004`, POST branch). -/
inductive ProcResult where
  | authRequired
  | badRequest
  | notFound
  | alreadyProcessed
  | notApplied (currentStatus : String)
  | ok (code newStatus processedAt : String)
  deriving Repr, DecidableEq

/-- The POST branch of `src/unnamed/part_004`
(`/api/partner/process-redemption`): requires partner auth; `process` marks
an `applied` redemption `used`, `reject` marks it `rejected`; a redemption
whose status is `used` yields the already-processed error, and any status
other than `applied` - including `pending` - yields the not-in-applied-state
error, for both actions. -/
def processRedemption (kv : KV) (partnerId : Option String)
    (code action now : String) : ProcResult × KV :=
  match partnerId with
  | none => (.authRequired, kv)
  | some pid =>
    if code = "" ∨ action = "" then (.badRequest, kv)
    else if ¬ (action = "process" ∨ action = "reject") then (.badRequest, kv)
    else
      match kv.redemptions ("redemption:" ++ code) with
      | none => (.notFound, kv)
      | some redemption =>
        if redemption.status = "used" then (.alreadyProcessed, kv)
        else if redemption.status ≠ "applied" then
          (.notApplied redemption.status, kv)
        else if action = "process" then
          let r1 := { redemption with
            status := "used", processedBy := pid, processedAt := now }
          (.ok code "used" now, setRedemption kv ("redemption:" ++ code) r1)
        else
          let r1 := { redemption with
            status := "rejected", rejectedBy := pid, rejectedAt := now }
          (.ok code "rejected" now, setRedemption kv ("redemption:" ++ code) r1)

/-- Hard-coded partner ids probed by the balance/redeem handlers. -/
def knownPartnerIds : List String := ["osm001", "tx003", "lz001", "lz002", "olo001"]

/-- Accumulator of the per-partner scan of the redeem-reward handler
(`src/unnamed/part_005`, lines 100-183): the `visitedPartners` set (which,
despite its name, collects partners the user is *registered or tied to*, not
partners actually visited), the `processedKeys` set and the running earned
total. -/
structure ScanState where
  visitedPartners : List String := []
  processedKeys : List String := []
  earned : Int := 0
  deriving Repr, DecidableEq

/-- One key probe of the redeem handler's inner loop: skip already processed
keys, skip missing records and records owned by another partner, and add the
derived points of visited records. -/
def scanKeyF (qrF : String → Option QrRecord) (pidLower : String)
    (st : ScanState) (key : String) : ScanState :=
  if st.processedKeys.contains key then st
  else
    let st1 := { st with processedKeys := st.processedKeys ++ [key] }
    match qrF key with
    | none => st1
    | some record =>
      let rp := jsToLower (orStr record.partnerId (orStr record.partner_id ""))
      if rp ≠ "" ∧ rp ≠ pidLower then st1
      else if isVisitedRecord record then
        { st1 with earned := st1.earned +
            derivePointsFromRecord record (record.payload.getD {}) }
      else st1

/-- One partner iteration of the redeem handler's scan: membership check
(lower- and upper-cased member sets), the QR-record fallback for
unregistered users, the `visitedPartners.add`, and the three key probes. -/
def scanPartnerF (qrF : String → Option QrRecord) (setsF : String → List String)
    (normalizedEmail email : String) (st : ScanState) (partnerId : String) :
    ScanState :=
  let pidLower := jsToLower (jsTrim partnerId)
  let membersLower := setsF ("partner:" ++ pidLower)
  let membersUpper := setsF ("partner:" ++ jsToUpper partnerId)
  let isRegistered := membersLower.contains normalizedEmail ||
    membersUpper.contains normalizedEmail || membersUpper.contains email
  let proceed : Bool :=
    if isRegistered then true
    else
      match qrF ("qr:email:" ++ normalizedEmail) with
      | some baseRec =>
        if truthyStr baseRec.partnerId || truthyStr baseRec.partner_id then
          jsToLower (orStr baseRec.partnerId (orStr baseRec.partner_id "")) == pidLower
        else false
      | none => false
  if ¬ proceed then st
  else
    let st1 :=
      if st.visitedPartners.contains pidLower then st
      else { st with visitedPartners := st.visitedPartners ++ [pidLower] }
    let keys := ["qr:email:" ++ normalizedEmail,
                 "qr:" ++ normalizedEmail ++ ":" ++ pidLower,
                 "qr:" ++ pidLower ++ ":" ++ normalizedEmail]
    keys.foldl (scanKeyF qrF pidLower) st1

/-- The partner ids discovered from the user's QR records
(`discoveredPartners` of `src/unnamed/part_005`). -/
def discoveredPartnersF (qrF : String → Option QrRecord)
    (normalizedEmail email : String) : List String :=
  (["qr:email:" ++ normalizedEmail, "qr:email:" ++ email]).foldl
    (fun acc qrKey =>
      match qrF qrKey with
      | some rec =>
        let pid := jsToLower (orStr rec.partnerId (orStr rec.partner_id ""))
        if pid ≠ "" ∧ ¬ acc.contains pid then acc ++ [pid] else acc
      | none => acc) []

/-- The merged partner list the redeem handler iterates over: the stored
`partners` set extended by the known and discovered ids not already
present. -/
def allPartnersF (qrF : String → Option QrRecord) (setsF : String → List String)
    (normalizedEmail email : String) : List String :=
  (knownPartnerIds ++ discoveredPartnersF qrF normalizedEmail email).foldl
    (fun acc pid => if acc.contains pid then acc else acc ++ [pid])
    (setsF "partners")

/-- The full per-partner scan of the redeem handler on a store. -/
def redeemScan (kv : KV) (normalizedEmail email : String) : ScanState :=
  (allPartnersF kv.qr kv.sets normalizedEmail email).foldl
    (scanPartnerF kv.qr kv.sets normalizedEmail email) {}

/-- Fold step of the redeem handler's redeemed-points sum: add `redemption`
entries with truthy points. -/
def redF (acc : Int) (entry : HistoryEntry) : Int :=
  if entry.type = "redemption" ∧ entry.points ≠ 0 then acc + entry.points
  else acc

/-- Sum of prior redemptions from a points-history list
(`src/unnamed/part_005`, lines 186-195): `redemption` entries with truthy
points. -/
def redeemRedeemedL (l : List HistoryEntry) : Int :=
  l.foldl redF 0

/-- The redeem handler's redeemed total for an account. -/
def redeemRedeemed (kv : KV) (normalizedEmail : String) : Int :=
  redeemRedeemedL (kv.history ("points:history:" ++ normalizedEmail))

/-- The redeem handler's available balance:
`max(0, totalPointsEarned - totalPointsRedeemed)`. -/
def redeemAvailable (kv : KV) (normalizedEmail email : String) : Int :=
  max 0 ((redeemScan kv normalizedEmail email).earned -
    redeemRedeemed kv normalizedEmail)

/-- Result of the redeem-reward handler (`src/unnamed/part_005`). -/
inductive RedeemResult where
  | badRequest
  | rewardNotFound
  | rewardInactive
  | insufficientPoints (required available : Int)
  | notEligible (requiredPartners yourPartners : List String)
  | success (code : String) (pointsSpent remainingPoints : Int)
  deriving Repr, DecidableEq

/-- Outcome of the read phase of the redeem handler: an error response, or
the data needed to commit. -/
inductive RedeemDecision where
  | fail (r : RedeemResult)
  | go (pointsCost : Int) (reward : Reward) (available : Int)
  deriving Repr, DecidableEq

/-- The read/check phase of `src/unnamed/part_005`: reward lookup and
status, balance computation, funds check, then the eligibility check against
`visitedPartners` (i.e. registered/tied partners - no `visited = true`
requirement). -/
def redeemDecide (kv : KV) (email rewardId : String) : RedeemDecision :=
  if email = "" ∨ rewardId = "" then .fail .badRequest
  else
    let normalizedEmail := jsToLower (jsTrim email)
    match kv.rewards ("reward:" ++ rewardId) with
    | none => .fail .rewardNotFound
    | some reward =>
      if reward.status ≠ "active" then .fail .rewardInactive
      else
        let pointsCost := parseIntOr reward.pointsCost 0
        let st := redeemScan kv normalizedEmail email
        let availablePoints := redeemAvailable kv normalizedEmail email
        if availablePoints < pointsCost then
          .fail (.insufficientPoints pointsCost availablePoints)
        else
          if 0 < reward.availableFor.length then
            if reward.availableFor.any
                (fun p => st.visitedPartners.contains (jsToLower p)) then
              .go pointsCost reward availablePoints
            else .fail (.notEligible reward.availableFor st.visitedPartners)
          else .go pointsCost reward availablePoints

/-- The write phase of `src/unnamed/part_005`: push the redemption onto the
user's list, store the redemption hash, push the `redemption` history entry,
and best-effort decrement the reward stock.  `code` is the generated
redemption code, `expiresInt` the `now + 30 days` expiry instant. -/
def redeemCommit (kv : KV) (email rewardId nowIso : String) (expiresInt : Int)
    (code : String) (pointsCost : Int) (reward : Reward) : KV :=
  let normalizedEmail := jsToLower (jsTrim email)
  let redemption : Redemption := {
    id := code
    email := normalizedEmail
    rewardId := rewardId
    rewardName := reward.name
    pointsSpent := pointsCost
    redeemedAt := nowIso
    status := "pending"
    expiresAt := expiresInt }
  let listKey := "redemptions:" ++ normalizedEmail
  let kv1 := { kv with redemList := upd kv.redemList listKey (redemption :: kv.redemList listKey) }
  let kv2 := setRedemption kv1 ("redemption:" ++ code) redemption
  let historyEntry : HistoryEntry := {
    type := "redemption"
    points := pointsCost
    rewardId := rewardId
    rewardName := reward.name
    redemptionCode := code
    timestamp := nowIso }
  let histKey := "points:history:" ++ normalizedEmail
  let kv3 := { kv2 with history := upd kv2.history histKey (historyEntry :: kv2.history histKey) }
  if truthyNum reward.stock then
    let currentStock := parseIntOr reward.stock 0
    if currentStock > 0 then
      let rw1 := { reward with stock := some (currentStock - 1) }
      { kv3 with rewards := upd kv3.rewards ("reward:" ++ rewardId) (some rw1) }
    else kv3
  else kv3

/-- The `POST /api/bonus/redeem-reward` handler (`src/unnamed/part_005`):
read phase then, on success, the write phase. -/
def redeemHandler (kv : KV) (email rewardId nowIso : String) (expiresInt : Int)
    (code : String) : RedeemResult × KV :=
  match redeemDecide kv email rewardId with
  | .fail r => (r, kv)
  | .go pointsCost reward available =>
    (.success code pointsCost (available - pointsCost),
      redeemCommit kv email rewardId nowIso expiresInt code pointsCost reward)

/-- Two concurrent `redeemHandler` calls under the lost-update interleaving:
each `await`ed KV operation is a separate round trip, so both calls can
perform their entire read phase against the initial store before either
write phase runs; the writes then apply in sequence. -/
def concurrentIssuePair (kv : KV) (email rewardId nowIso : String)
    (expiresInt : Int) (code1 code2 : String) :
    RedeemResult × RedeemResult × KV :=
  match redeemDecide kv email rewardId, redeemDecide kv email rewardId with
  | .fail r1, .fail r2 => (r1, r2, kv)
  | .fail r1, .go c2 rw2 av2 =>
    (r1, .success code2 c2 (av2 - c2),
      redeemCommit kv email rewardId nowIso expiresInt code2 c2 rw2)
  | .go c1 rw1 av1, .fail r2 =>
    (.success code1 c1 (av1 - c1), r2,
      redeemCommit kv email rewardId nowIso expiresInt code1 c1 rw1)
  | .go c1 rw1 av1, .go c2 rw2 av2 =>
    let kv1 := redeemCommit kv email rewardId nowIso expiresInt code1 c1 rw1
    (.success code1 c1 (av1 - c1), .success code2 c2 (av2 - c2),
      redeemCommit kv1 email rewardId nowIso expiresInt code2 c2 rw2)

/-- One known-partner probe of `api/bonus/user-points-fixed.js` (step 1):
the first of the three case variations whose member set contains the email
(normalized, raw, or lower-cased raw). -/
def upfVariantHit (setsF : String → List String) (email eNorm pid : String) :
    Option String :=
  ([jsToLower pid, jsToUpper pid, pid]).find? (fun v =>
    let m := setsF ("partner:" ++ v)
    m.contains eNorm || m.contains email || m.contains (jsToLower email))

/-- The known-partner part of `registeredPartners` (step 1 of
`user-points-fixed`): pairs of (lower-cased id, matching variant). -/
def upfKnownRegs (setsF : String → List String) (email eNorm : String) :
    List (String × String) :=
  knownPartnerIds.foldl
    (fun acc pid =>
      match upfVariantHit setsF email eNorm pid with
      | some v => acc ++ [(jsToLower pid, v)]
      | none => acc) []

/-- The full `registeredPartners` list of `user-points-fixed`: known-partner
hits extended by members of the `partners` set not already found. -/
def upfRegistered (kv : KV) (email eNorm : String) : List (String × String) :=
  (kv.sets "partners").foldl
    (fun acc pid =>
      let norm := jsToLower pid
      if (acc.map Prod.fst).contains norm then acc
      else
        let m := kv.sets ("partner:" ++ pid)
        if m.contains eNorm || m.contains email then acc ++ [(norm, pid)]
        else acc)
    (upfKnownRegs kv.sets email eNorm)

/-- The `currentPartnerId` of `user-points-fixed` (step 2): the partner the main
QR record is tied to, through record fields then payload fields; `none` when
the main record is missing. -/
def upfCurrentPid (kv : KV) (eNorm : String) : Option String :=
  match kv.qr ("qr:email:" ++ eNorm) with
  | some r =>
    let pay := r.payload.getD {}
    some (jsToLower (orStr r.partnerId (orStr r.partner_id
      (orStr pay.partner_id (orStr pay.partnerId "")))))
  | none => none

/-- The `allVisitRecords` map of `user-points-fixed` (step 3): records from the
user's visit-key set (requiring a nonempty `partnerId`), then from the
chronological list, then the main record - each key collected once. -/
def upfCollect (kv : KV) (eNorm : String) : List (String × QrRecord) :=
  let step1 := (kv.sets ("user:visits:" ++ eNorm)).foldl
    (fun acc k =>
      match kv.qr k with
      | some r =>
        if jsToLower (orStr r.partnerId "") ≠ "" ∧ ¬ (acc.map Prod.fst).contains k
        then acc ++ [(k, r)] else acc
      | none => acc) []
  let step2 := (kv.chrono ("visits:chrono:" ++ eNorm)).foldl
    (fun acc it =>
      match it.qrKey with
      | some k =>
        if k ≠ "" then
          match kv.qr k with
          | some r =>
            if ¬ (acc.map Prod.fst).contains k then acc ++ [(k, r)] else acc
          | none => acc
        else acc
      | none => acc) step1
  match kv.qr ("qr:email:" ++ eNorm) with
  | some r =>
    if ¬ (step2.map Prod.fst).contains ("qr:email:" ++ eNorm)
    then step2 ++ [("qr:email:" ++ eNorm, r)] else step2
  | none => step2

/-- The visit record selected for one registered partner (step 4 of
`user-points-fixed`): first matching collected record, else the first
nonempty record under the fallback key patterns (including the
`partner:visits:<pid>` keys containing the email - with *no* partner-id
check), else a synthetic pending record when the partner is not the main
record's partner. -/
def upfVisitData (kv : KV) (recs : List (String × QrRecord)) (eNorm : String)
    (currentPid : Option String) (pid orig : String) : Option QrRecord :=
  match (recs.find? (fun kr => jsToLower (orStr kr.2.partnerId "") = pid)).map Prod.snd with
  | some r => some r
  | none =>
    let possibleKeys :=
      ["qr:" ++ eNorm ++ ":" ++ pid,
       "qr:" ++ pid ++ ":" ++ eNorm,
       "qr:email:" ++ eNorm ++ ":" ++ pid,
       "qr:" ++ eNorm ++ ":" ++ orig,
       "qr:" ++ orig ++ ":" ++ eNorm] ++
      (kv.sets ("partner:visits:" ++ pid)).filter (fun k => hasSubStr k eNorm)
    match possibleKeys.findSome? (fun k => kv.qr k) with
    | some r => some r
    | none =>
      if currentPid ≠ some pid then
        some { email := eNorm, partnerId := some pid, status := "pending" }
      else none

/-- Points contributed by one selected record in `user-points-fixed`:
0 when not visited, else the step-4 calculation with transport bonus. -/
def upfPointsOf (r : QrRecord) : Int :=
  if isVisitedFixed r then pointsFixed r (r.payload.getD {}) else 0

/-- The `totalPointsEarned` sum of `user-points-fixed`: the sum of the selected
record's points over all registered partners. -/
def upfEarned (kv : KV) (email eNorm : String) : Int :=
  let recs := upfCollect kv eNorm
  let current := upfCurrentPid kv eNorm
  (upfRegistered kv email eNorm).foldl
    (fun acc pr =>
      match upfVisitData kv recs eNorm current pr.1 pr.2 with
      | some r => acc + upfPointsOf r
      | none => acc) 0

/-- The `totalPointsRedeemed` sum of `user-points-fixed`: the sum of `pointsSpent`
over the stored redemption list. -/
def upfRedeemed (kv : KV) (eNorm : String) : Int :=
  (kv.redemList ("redemptions:" ++ eNorm)).foldl
    (fun acc rd => acc + rd.pointsSpent) 0

/-- The balance triple of the `user-points-fixed` response (`user` object). -/
structure UserPointsResp where
  totalPoints : Int
  redeemedPoints : Int
  availablePoints : Int
  deriving Repr, DecidableEq

/-- The `GET /api/bonus/user-points` balance computation
(`src/server/routes/bonus/user-points-fixed.js`): earned, redeemed, and
`available = max(0, earned - redeemed)` (line 379).  The handler performs no
store writes. -/
def userPointsFixed (kv : KV) (email : String) : UserPointsResp :=
  let eNorm := jsToLower (jsTrim email)
  let earned := upfEarned kv email eNorm
  let redeemed := upfRedeemed kv eNorm
  { totalPoints := earned
    redeemedPoints := redeemed
    availablePoints := max 0 (earned - redeemed) }

/-- Concrete visited record worth 10 points for C2, stored under a shared
visit key reachable from two partners' `partner:visits` sets. -/
def c2Record : QrRecord :=
  { partnerId := some "osm001", visited := "true", pointsAwarded := some 10 }

/-- Concrete store for C2: the user is registered with `osm001` and `tx003`;
the only stored record sits under the single key `v:a@x:1`, which both
partners' `partner:visits` sets reference. -/
def c2Store : KV :=
  { qr := upd (fun _ => none) "v:a@x:1" (some c2Record)
    sets := fun k =>
      if k = "partner:osm001" then ["a@x"]
      else if k = "partner:tx003" then ["a@x"]
      else if k = "partner:visits:osm001" then ["v:a@x:1"]
      else if k = "partner:visits:tx003" then ["v:a@x:1"]
      else [] }

/-- Concrete zero-cost reward eligible only at partner `p1`, for C3. -/
def c3Reward : Reward :=
  { status := "active", pointsCost := some 0, availableFor := ["p1"], name := "R1" }

/-- Concrete store for C3: the user is registered with `p1` (member set
only); no QR record exists anywhere, so no visit was ever confirmed. -/
def c3Store : KV :=
  { rewards := upd (fun _ => none) "reward:r1" (some c3Reward)
    sets := fun k =>
      if k = "partners" then ["p1"]
      else if k = "partner:p1" then ["a@x"] else [] }

/-- Concrete store for the C3 witness: the user is registered with `p2`
only, while the reward is eligible only at `p1`. -/
def c3StoreB : KV :=
  { rewards := upd (fun _ => none) "reward:r1" (some c3Reward)
    sets := fun k =>
      if k = "partners" then ["p2"]
      else if k = "partner:p2" then ["a@x"] else [] }

/-- Concrete visited record worth 20 points for C8. -/
def c8Record : QrRecord :=
  { partnerId := some "p1", visited := "true", pointsAwarded := some 20 }

/-- Concrete reward costing 15 points for C8. -/
def c8Reward : Reward := { status := "active", pointsCost := some 15, name := "R1" }

/-- Concrete store for C8: balance 20, reward cost 15, so funds suffice for
exactly one redemption. -/
def c8Store : KV :=
  { qr := upd (fun _ => none) "qr:email:a@x" (some c8Record)
    rewards := upd (fun _ => none) "reward:r1" (some c8Reward)
    sets := fun k =>
      if k = "partners" then ["p1"]
      else if k = "partner:p1" then ["a@x"] else [] }

/-- Concrete pending (never applied) redemption for C6. -/
def c6Redemption : Redemption := { email := "a@x", status := "pending", rewardName := "R" }

/-- Concrete store holding the pending `c6Redemption` under code `RC`. -/
def c6Store : KV :=
  { redemptions := upd (fun _ => none) "redemption:RC" (some c6Redemption) }

/-- Concrete applied redemption for the C6 witness. -/
def c6RedemptionA : Redemption := { email := "a@x", status := "applied" }

/-- Concrete store holding the applied `c6RedemptionA`. -/
def c6StoreA : KV :=
  { redemptions := upd (fun _ => none) "redemption:RC" (some c6RedemptionA) }

/-- The state of `c6RedemptionA` after a successful `process` by partner `p1`. -/
def c6RedemptionUsed : Redemption :=
  { email := "a@x", status := "used", processedBy := "p1", processedAt := "T" }

/-- Concrete already-visited record for the C1 witness. -/
def c1Record : QrRecord := { partnerId := some "p1", visited := "true", visitedAt := "T1" }

/-- Concrete store holding `c1Record` with the user in partner `p1`'s set. -/
def c1Store : KV :=
  { qr := upd (fun _ => none) "qr:email:a@x" (some c1Record)
    sets := fun k => if k = "partner:p1" then ["a@x"] else [] }

/-- Concrete unvisited record (price 2000 → 20 points) for the C1 witness. -/
def c1RecordU : QrRecord :=
  { partnerId := some "p1", visited := "false", payload := some { totalPrice := some 2000 } }

/-- Concrete store holding the unvisited `c1RecordU`. -/
def c1StoreU : KV := { qr := upd (fun _ => none) "qr:email:a@x" (some c1RecordU) }

/-- Concrete payload for the C4 witness. -/
def c4Payload : Payload :=
  { estimatedPoints := some 7, numPeople := some 2, Transport := some "Yes" }

/-- Concrete unvisited record (price 2000 → 20 points) for the C10
witness. -/
def c10Record : QrRecord :=
  { partnerId := some "p1", visited := "false",
    payload := some { totalPrice := some 2000 } }

/-- Concrete store for C10: the user is in exactly one partner member set
and has an empty points history. -/
def c10Store : KV :=
  { qr := upd (fun _ => none) "qr:email:a@x" (some c10Record)
    sets := fun k =>
      if k = "partners" then ["p1"]
      else if k = "partner:p1" then ["a@x"] else [] }

/-- Concrete pending-but-expired redemption for C7. -/
def c7Redemption : Redemption :=
  { email := "a@x", status := "pending", expiresAt := 0, rewardName := "R", pointsSpent := 15 }

/-- Concrete store holding `c7Redemption` under code `RC`. -/
def c7Store : KV :=
  { redemptions := upd (fun _ => none) "redemption:RC" (some c7Redemption) }

/-- Concrete visited-and-credited record for C9. -/
def c9Record : QrRecord :=
  { partnerId := some "p1", visited := "true", visitedAt := "T0", pointsAwarded := some 20 }

/-- Concrete registration body carrying partner id `p1` for C9. -/
def c9Body : RegBody := { partner_id := some "p1" }

/-- Concrete store for C9: the record is already visited and one earned
entry is in the history. -/
def c9Store : KV :=
  { qr := upd (fun _ => none) "qr:email:a@x" (some c9Record)
    history := fun k =>
      if k = "points:history:a@x" then [{ type := "earned", points := 20 }] else [] }

example : computePoints { totalPrice := some 2000 } = 20 := by decide
example : computePoints { estimatedPoints := some 7, totalPrice := some 2000 } = 7 := by decide
example : computePoints { ticket := some "VIP", numPeople := some 2 } = 100 := by decide
example : computePoints { numPeople := some (-1) } = -10 := by decide
example : computePoints { estimatedPoints := some 0, totalPrice := some 500 } = 5 := by decide
example : specPointsPolicy { estimatedPoints := some 0, totalPrice := some 500 } = 0 := by decide

theorem markVisited_noop (kv : KV) (email partnerId nowIso confId : String)
    (visitDate notes : Option String) (r : QrRecord)
    (hrec : kv.qr ("qr:email:" ++ jsToLower (jsTrim email)) = some r)
    (hpid : recPid r = jsToLower (jsTrim partnerId))
    (hvis : r.visited = "true") :
    markVisited kv email partnerId visitDate notes nowIso confId =
      (.alreadyVisited r.visitedAt, kv) := by
  simp [markVisited, hrec, hpid, hvis]

theorem markVisited_commits (kv : KV) (email partnerId nowIso confId : String)
    (r : QrRecord)
    (hrec : kv.qr ("qr:email:" ++ jsToLower (jsTrim email)) = some r)
    (hpid : recPid r = jsToLower (jsTrim partnerId))
    (hvis : r.visited ≠ "true") :
    let kv' := (markVisited kv email partnerId none none nowIso confId).2
    (∃ r', kv'.qr ("qr:email:" ++ jsToLower (jsTrim email)) = some r' ∧
        r'.visited = "true" ∧ recPid r' = recPid r) ∧
    earnedCount kv' (jsToLower (jsTrim email)) =
      earnedCount kv (jsToLower (jsTrim email)) + 1 := by
  intro kv'
  constructor
  · refine ⟨{ r with
      visited := "true"
      visitedAt := nowIso
      pointsAwarded := some (computePoints (r.payload.getD {}))
      visitNotes := ""
      lastUpdated := nowIso }, ?_, rfl, rfl⟩
    show kv'.qr _ = some _
    simp only [markVisited, kv', hrec]
    simp [hpid, hvis, upd]
  · show earnedCount kv' _ = _
    simp only [markVisited, kv', hrec]
    simp [hpid, hvis, earnedCount, upd]

theorem iterConfirm_fixed (kv : KV) (email partnerId nowIso confId : String)
    (r : QrRecord)
    (hrec : kv.qr ("qr:email:" ++ jsToLower (jsTrim email)) = some r)
    (hpid : recPid r = jsToLower (jsTrim partnerId))
    (hvis : r.visited = "true") :
    ∀ n, iterConfirm email partnerId nowIso confId n kv = kv := by
  intro n
  induction n with
  | zero => rfl
  | succ m ih =>
    show iterConfirm email partnerId nowIso confId m
      (markVisited kv email partnerId none none nowIso confId).2 = kv
    rw [markVisited_noop kv email partnerId nowIso confId none none r hrec hpid hvis]
    exact ih

/-- C1: if the stored record already has `visited = 'true'`, both
visit-confirmation handlers perform no store writes and return the existing
data; and any sequence of `n ≥ 1` confirmation calls on the same
(email, partner) appends exactly one `earned` ledger entry. -/
theorem c1_confirmVisit_idempotent (kv : KV)
    (email partnerId nowIso confId : String) (r : QrRecord)
    (hrec : kv.qr ("qr:email:" ++ jsToLower (jsTrim email)) = some r)
    (hpid : recPid r = jsToLower (jsTrim partnerId)) :
    (r.visited = "true" →
      markVisited kv email partnerId none none nowIso confId =
        (.alreadyVisited r.visitedAt, kv)) ∧
    (r.visited = "true" →
      jsToLower (jsTrim email) ∈ kv.sets ("partner:" ++ jsToLower partnerId) →
      partnerVisitUpdate kv email partnerId nowIso =
        (.alreadyVisited (jsToLower (jsTrim email)) (jsToLower partnerId)
          (jsOrS r.visitedAt (jsOrS r.scannedAt r.createdAt)), kv)) ∧
    (r.visited ≠ "true" → ∀ n, 1 ≤ n →
      earnedCount (iterConfirm email partnerId nowIso confId n kv)
          (jsToLower (jsTrim email)) =
        earnedCount kv (jsToLower (jsTrim email)) + 1) := by
  refine ⟨?_, ?_, ?_⟩
  · intro hvis
    exact markVisited_noop kv email partnerId nowIso confId none none r hrec hpid hvis
  · intro hvis hmem
    have hlow : jsToLower r.visited = "true" := by rw [hvis]; decide
    simp [partnerVisitUpdate, hrec, hmem, hlow]
  · intro hvis n hn
    obtain ⟨m, rfl⟩ : ∃ m, n = m + 1 := ⟨n - 1, (Nat.succ_pred_eq_of_pos hn).symm⟩
    obtain ⟨⟨r', hrec', hvis', hpid'⟩, hcount⟩ :=
      markVisited_commits kv email partnerId nowIso confId r hrec hpid hvis
    show earnedCount (iterConfirm email partnerId nowIso confId m
      (markVisited kv email partnerId none none nowIso confId).2) _ = _
    rw [iterConfirm_fixed _ email partnerId nowIso confId r' hrec'
      (hpid'.trans hpid) hvis']
    exact hcount

/-- Witness for C1: on the already-visited store the call is a no-op, and
three repeated calls on the unvisited store append exactly one earned
entry. -/
theorem c1_confirmVisit_idempotent_witness :
    (markVisited c1Store "a@x" "p1" none none "now" "cid" =
      (.alreadyVisited "T1", c1Store)) ∧
    earnedCount (iterConfirm "a@x" "p1" "now" "cid" 3 c1StoreU) "a@x" =
      earnedCount c1StoreU "a@x" + 1 := by
  constructor
  · exact (c1_confirmVisit_idempotent c1Store "a@x" "p1" "now" "cid" c1Record
      (by decide) (by decide)).1 rfl
  · exact (c1_confirmVisit_idempotent c1StoreU "a@x" "p1" "now" "cid" c1RecordU
      (by decide) (by decide)).2.2 (by decide) 3 (by decide)

theorem numPeopleEff_eq_spec (p : Payload)
    (hnum : ∀ k, p.numPeople = some k → 0 ≤ k) :
    numPeopleEff p = specPartySize p := by
  cases hp : p.numPeople with
  | none => simp [numPeopleEff, parseIntOr, specPartySize, hp]
  | some k =>
    have hk := hnum k hp
    simp only [numPeopleEff, parseIntOr, specPartySize, hp]
    rcases eq_or_lt_of_le hk with h | h
    · simp [← h]
    · rw [if_neg (by omega), if_neg (by omega)]

/-- C4 counterexample: a precomputed point value of `0` is *present* but the
code's truthiness guard (`if (payload.estimatedPoints)`) treats it as
absent, so the price branch fires: the code yields 5 where the claimed
precedence yields 0. -/
theorem c4_points_precedence_counterexample :
    computePoints { estimatedPoints := some 0, totalPrice := some 500 } = 5 ∧
    specPointsPolicy { estimatedPoints := some 0, totalPrice := some 500 } = 0 := by
  constructor <;> decide

/-- C4 (amended): the claimed precedence holds for every payload whose
precomputed point value is not the (falsy) number 0 and whose party size,
when present, is nonnegative (the code defaults only `0` to 1; a negative
party size is used as-is). -/
theorem c4_points_precedence_amended (p : Payload)
    (hest : p.estimatedPoints ≠ some 0)
    (hnum : ∀ k, p.numPeople = some k → 0 ≤ k) :
    computePoints p = specPointsPolicy p := by
  have hparty := numPeopleEff_eq_spec p hnum
  have hbase : computePointsBase p = specPointsBase p := by
    cases he : p.estimatedPoints with
    | some v =>
      have hv : v ≠ 0 := fun h => hest (h ▸ he)
      simp [computePointsBase, specPointsBase, he, truthyNum, hv]
    | none =>
      cases ht : p.totalPrice with
      | none =>
        simp [computePointsBase, specPointsBase, specTicketTable, he, ht,
          truthyNum, parseIntOr, hparty]
      | some price =>
        by_cases h0 : price = 0
        · subst h0
          simp [computePointsBase, specPointsBase, specTicketTable, he, ht,
            truthyNum, parseIntOr, hparty]
        · by_cases hpos : price > 0
          · simp [computePointsBase, specPointsBase, he, ht, truthyNum,
              parseIntOr, h0, hpos]
          · simp [computePointsBase, specPointsBase, specTicketTable, he, ht,
              truthyNum, parseIntOr, h0, hpos, hparty]
  unfold computePoints specPointsPolicy
  rw [hbase]

/-- Witness for the amended C4 at a concrete payload. -/
theorem c4_points_precedence_amended_witness :
    c4Payload.estimatedPoints ≠ some 0 ∧
    computePoints c4Payload = specPointsPolicy c4Payload :=
  ⟨by decide,
    c4_points_precedence_amended c4Payload (by decide)
      (fun k hk => by injection hk with h; omega)⟩

/-- C5 counterexample: a negative party size is passed through
`parseInt(payload.numPeople) || 1` unchanged, so the default ticket branch
returns `10 × (-1) = -10 < 0`. -/
theorem c5_points_nonneg_counterexample :
    computePoints { numPeople := some (-1) } < 0 := by decide

theorem estGetD_nonneg (v : Option Int) (h : ∀ x, v = some x → 0 ≤ x) :
    0 ≤ v.getD 0 := by
  cases hv : v with
  | none => simp
  | some x => simpa [hv] using h x hv

/-- C5 (amended): the points computations are total and nonnegative provided
the payload's precomputed value, party size and (for the redeem handler's
variant, which keys on truthiness rather than positivity of the price) total
price, and the record's stored `pointsAwarded`, are nonnegative when
present; a negative party size or precomputed value does produce a negative
result, contrary to the original claim. -/
theorem c5_points_nonneg_amended (p : Payload) (r : QrRecord)
    (hest : ∀ v, p.estimatedPoints = some v → 0 ≤ v)
    (hnum : ∀ k, p.numPeople = some k → 0 ≤ k)
    (hpa : ∀ v, r.pointsAwarded = some v → 0 ≤ v)
    (hprice : ∀ v, p.totalPrice = some v → 0 ≤ v) :
    0 ≤ computePoints p ∧ 0 ≤ derivePointsFromRecord r p := by
  have hn1 : 1 ≤ numPeopleEff p := by
    cases hp : p.numPeople with
    | none => simp [numPeopleEff, parseIntOr, hp]
    | some k =>
      have := hnum k hp
      simp only [numPeopleEff, parseIntOr, hp]
      split <;> omega
  have hn0 : 0 ≤ numPeopleEff p := le_trans zero_le_one hn1
  have htab : ∀ c : Int, 0 ≤ c → 0 ≤ c * numPeopleEff p :=
    fun c hc => mul_nonneg hc hn0
  have hestD := estGetD_nonneg p.estimatedPoints hest
  have hpaD := estGetD_nonneg r.pointsAwarded hpa
  have hpriceD := estGetD_nonneg p.totalPrice hprice
  have hpriceP : 0 ≤ parseIntOr p.totalPrice 0 := by
    cases ht : p.totalPrice with
    | none => norm_num [parseIntOr]
    | some v =>
      have := hprice v ht
      simp only [parseIntOr, ht]
      split <;> omega
  constructor
  · have hbase : 0 ≤ computePointsBase p := by
      unfold computePointsBase
      split
      · exact hestD
      · split
        · next h =>
          exact Int.fdiv_nonneg (le_of_lt h) (by norm_num)
        · split <;> [exact htab 50 (by norm_num); exact htab 30 (by norm_num);
            exact htab 20 (by norm_num); exact htab 10 (by norm_num)]
    unfold computePoints
    split <;> omega
  · unfold derivePointsFromRecord
    split
    · exact hpaD
    · split
      · exact hestD
      · split
        · exact Int.fdiv_nonneg hpriceD (by norm_num)
        · split <;> [exact htab 50 (by norm_num); exact htab 30 (by norm_num);
            exact htab 20 (by norm_num); exact htab 10 (by norm_num)]

/-- Witness for the amended C5 at a concrete payload and record. -/
theorem c5_points_nonneg_amended_witness :
    0 ≤ computePoints { ticket := some "vip" } ∧
    0 ≤ derivePointsFromRecord {} { ticket := some "vip" } :=
  c5_points_nonneg_amended { ticket := some "vip" } {}
    (fun _ h => nomatch h) (fun _ h => nomatch h)
    (fun _ h => nomatch h) (fun _ h => nomatch h)

theorem charToNat_ofNat_valid (n : Nat) (h : n.isValidChar) :
    (Char.ofNat n).toNat = n := by
  simp only [Char.ofNat, dif_pos h, Char.ofNatAux, Char.toNat]
  rfl

theorem charToLower_idem (c : Char) : c.toLower.toLower = c.toLower := by
  simp only [Char.toLower]
  split
  · next h =>
    have hv : (c.toNat + 32).isValidChar := by
      left
      have : c.toNat ≤ 90 := h.2
      omega
    rw [charToNat_ofNat_valid _ hv, if_neg (by omega)]
  · rfl

theorem mapToLower_idem (l : List Char) :
    (l.map Char.toLower).map Char.toLower = l.map Char.toLower := by
  induction l with
  | nil => rfl
  | cons c t ih => simp [charToLower_idem, ih]

theorem jsToLower_idem (s : String) : jsToLower (jsToLower s) = jsToLower s :=
  congrArg String.mk (mapToLower_idem s.data)

/-- C7 counterexample: applying an expired pending voucher at registration
returns the expired error but writes nothing - the stored status remains
`pending`, not `Expired`. -/
theorem c7_expired_apply_counterexample :
    registerHandler c7Store "a@x" (some "RC") {} 5 "T1" = (.expiredCode "RC", c7Store) ∧
    (registerHandler c7Store "a@x" (some "RC") {} 5 "T1").2.redemptions "redemption:RC" =
      some c7Redemption ∧
    c7Redemption.status = "pending" := by
  refine ⟨rfl, rfl, rfl⟩

/-- C7 (amended): for every pending redemption whose expiry is past, the
registration-time apply fails with the expired error and leaves the store
(and hence the stored `pending` status) completely unchanged; no `Expired`
status is ever written. -/
theorem c7_expired_apply_amended (kv : KV) (email code : String) (body : RegBody)
    (nowInt : Int) (nowIso : String) (d : Redemption)
    (hne : email ≠ "")
    (hat : (jsToLower (jsTrim email)).data.contains '@' = true)
    (hred : kv.redemptions ("redemption:" ++ code) = some d)
    (hemail : d.email = jsToLower (jsTrim email))
    (hstatus : d.status = "pending")
    (hexp : d.expiresAt ≤ nowInt) :
    registerHandler kv email (some code) body nowInt nowIso = (.expiredCode code, kv) := by
  have hlt : ¬ (nowInt < d.expiresAt) := by omega
  have hat' : '@' ∈ (jsToLower (jsTrim email)).data := by simpa using hat
  simp [registerHandler, hne, hat', hred, hemail, hstatus, hexp, hlt]

/-- Witness for the amended C7 at the concrete expired store. -/
theorem c7_expired_apply_amended_witness :
    c7Redemption.status = "pending" ∧ c7Redemption.expiresAt ≤ 5 ∧
    registerHandler c7Store "a@x" (some "RC") {} 5 "T1" = (.expiredCode "RC", c7Store) :=
  ⟨rfl, by decide,
    c7_expired_apply_amended c7Store "a@x" "RC" {} 5 "T1" c7Redemption
      (by decide) (by decide) (by decide) (by decide) rfl (by decide)⟩

/-- C9: a successful registration unconditionally writes `visited = 'false'`
and `visitedAt = ''` over the stored record (even when a prior confirmation
set `visited = 'true'` and awarded points, which are preserved), and a
subsequent confirmation for the same account then passes the already-visited
guard and appends a second earned history entry. -/
theorem c9_register_resets_visited (kv : KV) (email pid2 : String)
    (body : RegBody) (nowInt : Int) (nowIso nowIso2 confId : String)
    (r : QrRecord)
    (hne : email ≠ "")
    (hat : (jsToLower (jsTrim email)).data.contains '@' = true)
    (hrec : kv.qr ("qr:email:" ++ jsToLower (jsTrim email)) = some r)
    (hvis : r.visited = "true")
    (hpk : extractPartnerId body ≠ "")
    (hnpk : jsToLower (jsTrim (extractPartnerId body)) ≠ "")
    (hpid2 : jsToLower (jsTrim pid2) =
      jsToLower (jsTrim (extractPartnerId body))) :
    ∃ r1,
      (registerHandler kv email none body nowInt nowIso).2.qr
          ("qr:email:" ++ jsToLower (jsTrim email)) = some r1 ∧
      r1.visited = "false" ∧ r1.visitedAt = "" ∧
      r1.pointsAwarded = r.pointsAwarded ∧
      earnedCount (markVisited (registerHandler kv email none body nowInt nowIso).2
            email pid2 none none nowIso2 confId).2 (jsToLower (jsTrim email)) =
        earnedCount kv (jsToLower (jsTrim email)) + 1 := by
  have hat' : '@' ∈ (jsToLower (jsTrim email)).data := by simpa using hat
  have hkv1 : (registerHandler kv email none body nowInt nowIso).2 =
      { kv with
        sets := sadd (sadd kv.sets
            ("partner:" ++ jsToLower (jsTrim (extractPartnerId body)))
            (jsToLower (jsTrim email)))
          "partners" (jsToLower (jsTrim (extractPartnerId body)))
        qr := upd kv.qr ("qr:email:" ++ jsToLower (jsTrim email))
          (some { r with
            email := jsToLower (jsTrim email)
            used := "false"
            payload := some body.pay
            createdAt := nowIso
            visited := "false"
            visitedAt := ""
            partnerId := some (jsToLower (jsTrim (extractPartnerId body))) }) } := by
    simp [registerHandler, registerFinish, hne, hat', hpk, hrec]
  refine ⟨{ r with
      email := jsToLower (jsTrim email)
      used := "false"
      payload := some body.pay
      createdAt := nowIso
      visited := "false"
      visitedAt := ""
      partnerId := some (jsToLower (jsTrim (extractPartnerId body))) },
    ?_, rfl, rfl, rfl, ?_⟩
  · rw [hkv1]
    simp [upd]
  · have hrec1 : (registerHandler kv email none body nowInt nowIso).2.qr
        ("qr:email:" ++ jsToLower (jsTrim email)) = some { r with
          email := jsToLower (jsTrim email)
          used := "false"
          payload := some body.pay
          createdAt := nowIso
          visited := "false"
          visitedAt := ""
          partnerId := some (jsToLower (jsTrim (extractPartnerId body))) } := by
      rw [hkv1]; simp [upd]
    have hpid1 : recPid { r with
          email := jsToLower (jsTrim email)
          used := "false"
          payload := some body.pay
          createdAt := nowIso
          visited := "false"
          visitedAt := ""
          partnerId := some (jsToLower (jsTrim (extractPartnerId body))) } =
        jsToLower (jsTrim pid2) := by
      simp only [recPid, orStr, if_neg hnpk]
      rw [hpid2, jsToLower_idem]
    obtain ⟨_, hcount⟩ := markVisited_commits
      (registerHandler kv email none body nowInt nowIso).2 email pid2 nowIso2 confId
      _ hrec1 hpid1 (by simp)
    rw [hcount, hkv1]
    rfl

/-- Witness for C9 at a concrete store whose record is already visited with
one earned entry in the history. -/
theorem c9_register_resets_visited_witness :
    earnedCount (markVisited (registerHandler c9Store "a@x" none c9Body 0 "T1").2
        "a@x" "p1" none none "T2" "cid").2 "a@x" =
      earnedCount c9Store "a@x" + 1 := by
  obtain ⟨r1, h1, h2, h3, h4, h5⟩ :=
    c9_register_resets_visited c9Store "a@x" "p1" c9Body 0 "T1" "T2" "cid" c9Record
      (by decide) (by decide) (by decide) (by decide) (by decide) (by decide) (by decide)
  exact h5

/-- C6 counterexample: `reject` on a `pending` (never applied) voucher does
not succeed - the handler requires status `applied` for both actions, so
cancelling an unused voucher is impossible; the store is unchanged. -/
theorem c6_process_transitions_counterexample :
    processRedemption c6Store (some "p1") "RC" "reject" "T" =
      (.notApplied "pending", c6Store) := rfl

/-- C6 (amended): both `process` (Use) and `reject` succeed only from
status `applied`; from `used` the already-processed error is returned and
from every other status (including `pending`) the invalid-state error is
returned, in both cases leaving the voucher unchanged. -/
theorem c6_process_transitions_amended (kv : KV) (pid code action now : String)
    (d : Redemption)
    (hcode : code ≠ "")
    (haction : action = "process" ∨ action = "reject")
    (hred : kv.redemptions ("redemption:" ++ code) = some d) :
    (d.status ≠ "applied" →
      processRedemption kv (some pid) code action now =
        ((if d.status = "used" then .alreadyProcessed else .notApplied d.status), kv)) ∧
    (d.status = "applied" → action = "process" →
      processRedemption kv (some pid) code action now =
        (.ok code "used" now, setRedemption kv ("redemption:" ++ code)
          { d with status := "used", processedBy := pid, processedAt := now })) ∧
    (d.status = "applied" → action = "reject" →
      processRedemption kv (some pid) code action now =
        (.ok code "rejected" now, setRedemption kv ("redemption:" ++ code)
          { d with status := "rejected", rejectedBy := pid, rejectedAt := now })) := by
  have hact : action ≠ "" := by
    rcases haction with h | h <;> simp [h]
  refine ⟨?_, ?_, ?_⟩
  · intro hna
    by_cases hused : d.status = "used"
    · simp [processRedemption, hcode, hact, haction, hred, hused]
    · simp [processRedemption, hcode, hact, haction, hred, hused, hna]
  · intro happ hproc
    subst hproc
    simp [processRedemption, hcode, hred, happ]
  · intro happ hrej
    subst hrej
    have hne : d.status ≠ "used" := by rw [happ]; decide
    simp [processRedemption, hcode, hred, happ, hne]

/-- Witness for the amended C6: `process` on an applied voucher reaches
`used`. -/
theorem c6_process_transitions_amended_witness :
    processRedemption c6StoreA (some "p1") "RC" "process" "T" =
      (.ok "RC" "used" "T", setRedemption c6StoreA "redemption:RC" c6RedemptionUsed) :=
  (c6_process_transitions_amended c6StoreA "p1" "RC" "process" "T" c6RedemptionA
    (by decide) (Or.inl rfl) (by decide)).2.1 rfl rfl

/-- C3 counterexample: with no QR record anywhere (so no visited record at
any partner), issuance for a reward with the non-empty eligible set `[p1]`
succeeds on mere membership in partner `p1`'s set - registration alone
satisfies the eligibility check. -/
theorem c3_eligibility_counterexample :
    (redeemHandler c3Store "a@x" "r1" "T" 99 "RC").1 = .success "RC" 0 0 ∧
    c3Store.qr "qr:email:a@x" = none := by
  exact ⟨by decide, rfl⟩

/-- C8 counterexample: two concurrent issuance calls against a balance of 20
and a cost of 15 both succeed under the lost-update interleaving (both read
phases before both write phases), leaving 30 points redeemed against 20
earned. -/
theorem c8_concurrent_issue_counterexample :
    (concurrentIssuePair c8Store "a@x" "r1" "T" 99 "C1" "C2").1 =
      .success "C1" 15 5 ∧
    (concurrentIssuePair c8Store "a@x" "r1" "T" 99 "C1" "C2").2.1 =
      .success "C2" 15 5 ∧
    redeemRedeemedL ((concurrentIssuePair c8Store "a@x" "r1" "T" 99 "C1" "C2").2.2.history
      "points:history:a@x") = 30 ∧
    (redeemScan (concurrentIssuePair c8Store "a@x" "r1" "T" 99 "C1" "C2").2.2
      "a@x" "a@x").earned = 20 := by
  exact ⟨by decide, by decide, by decide, by decide⟩

/-- C3 (amended): with a non-empty eligible set and sufficient funds,
issuance fails with the not-eligible error exactly when no eligible partner
is among the account's *associated* partners (registered via a member set or
tied via the QR record) - a `visited = true` record is not required, so mere
registration with an eligible partner does make issuance succeed. -/
theorem c3_eligibility_amended (kv : KV) (email rewardId nowIso : String)
    (expiresInt : Int) (code : String) (rw : Reward)
    (hne : ¬ (email = "" ∨ rewardId = ""))
    (hrw : kv.rewards ("reward:" ++ rewardId) = some rw)
    (hactive : rw.status = "active")
    (havail : ¬ (redeemAvailable kv (jsToLower (jsTrim email)) email <
      parseIntOr rw.pointsCost 0))
    (hfor : 0 < rw.availableFor.length) :
    (rw.availableFor.any (fun p =>
        ((redeemScan kv (jsToLower (jsTrim email)) email).visitedPartners).contains
          (jsToLower p)) = true →
      (redeemHandler kv email rewardId nowIso expiresInt code).1 =
        .success code (parseIntOr rw.pointsCost 0)
          (redeemAvailable kv (jsToLower (jsTrim email)) email -
            parseIntOr rw.pointsCost 0)) ∧
    (rw.availableFor.any (fun p =>
        ((redeemScan kv (jsToLower (jsTrim email)) email).visitedPartners).contains
          (jsToLower p)) = false →
      (redeemHandler kv email rewardId nowIso expiresInt code).1 =
        .notEligible rw.availableFor
          (redeemScan kv (jsToLower (jsTrim email)) email).visitedPartners) := by
  constructor
  · intro hany
    simp at hany
    simp [redeemHandler, redeemDecide, hne, hrw, hactive, havail, hfor, hany]
  · intro hany
    simp at hany
    have hcond : ¬ (∃ x ∈ rw.availableFor, jsToLower x ∈
        (redeemScan kv (jsToLower (jsTrim email)) email).visitedPartners) := by
      rintro ⟨x, hx, hmem⟩
      exact hany x hx hmem
    simp [redeemHandler, redeemDecide, hne, hrw, hactive, havail, hfor, hcond]

/-- Witness for the amended C3: registration with the wrong partner yields
the not-eligible error; registration with the eligible partner yields
success (see the counterexample store, which shares the reward). -/
theorem c3_eligibility_amended_witness :
    (redeemHandler c3StoreB "a@x" "r1" "T" 99 "RC").1 =
      .notEligible ["p1"] ["p2"] ∧
    (redeemHandler c3Store "a@x" "r1" "T" 99 "RC").1 = .success "RC" 0 0 := by
  constructor
  · exact (c3_eligibility_amended c3StoreB "a@x" "r1" "T" 99 "RC" c3Reward
      (by decide) (by decide) rfl (by decide) (by decide)).2 (by decide)
  · exact (c3_eligibility_amended c3Store "a@x" "r1" "T" 99 "RC" c3Reward
      (by decide) (by decide) rfl (by decide) (by decide)).1 (by decide)

theorem redeemCommit_qr (kv : KV) (email rewardId nowIso : String)
    (expiresInt : Int) (code : String) (pointsCost : Int) (reward : Reward) :
    (redeemCommit kv email rewardId nowIso expiresInt code pointsCost reward).qr = kv.qr := by
  simp only [redeemCommit, setRedemption]
  split
  · split <;> rfl
  · rfl

theorem redeemCommit_sets (kv : KV) (email rewardId nowIso : String)
    (expiresInt : Int) (code : String) (pointsCost : Int) (reward : Reward) :
    (redeemCommit kv email rewardId nowIso expiresInt code pointsCost reward).sets = kv.sets := by
  simp only [redeemCommit, setRedemption]
  split
  · split <;> rfl
  · rfl

theorem redeemScan_commit (kv : KV) (email rewardId nowIso : String)
    (expiresInt : Int) (code : String) (pointsCost : Int) (reward : Reward)
    (ne em : String) :
    redeemScan (redeemCommit kv email rewardId nowIso expiresInt code pointsCost reward) ne em =
      redeemScan kv ne em := by
  unfold redeemScan
  rw [redeemCommit_qr, redeemCommit_sets]

theorem redeemCommit_history (kv : KV) (email rewardId nowIso : String)
    (expiresInt : Int) (code : String) (pointsCost : Int) (reward : Reward) :
    (redeemCommit kv email rewardId nowIso expiresInt code pointsCost reward).history
        ("points:history:" ++ jsToLower (jsTrim email)) =
      { type := "redemption", points := pointsCost, rewardId := rewardId,
        rewardName := reward.name, redemptionCode := code, timestamp := nowIso } ::
        kv.history ("points:history:" ++ jsToLower (jsTrim email)) := by
  simp only [redeemCommit, setRedemption]
  split
  · split <;> simp [upd]
  · simp [upd]

theorem redeemCommit_reward_lookup (kv : KV) (email rewardId nowIso : String)
    (expiresInt : Int) (code : String) (pointsCost : Int) (rw : Reward)
    (hrw : kv.rewards ("reward:" ++ rewardId) = some rw) :
    ∃ rw', (redeemCommit kv email rewardId nowIso expiresInt code pointsCost rw).rewards
        ("reward:" ++ rewardId) = some rw' ∧
      rw'.status = rw.status ∧ rw'.pointsCost = rw.pointsCost ∧
      rw'.availableFor = rw.availableFor := by
  simp only [redeemCommit, setRedemption]
  split
  · split
    · refine ⟨{ rw with stock := some (parseIntOr rw.stock 0 - 1) }, ?_, rfl, rfl, rfl⟩
      simp [upd]
    · exact ⟨rw, hrw, rfl, rfl, rfl⟩
  · exact ⟨rw, hrw, rfl, rfl, rfl⟩

theorem foldl_redF_init (l : List HistoryEntry) (a : Int) :
    l.foldl redF a = a + l.foldl redF 0 := by
  induction l generalizing a with
  | nil => simp
  | cons e t ih =>
    rw [List.foldl_cons, List.foldl_cons, ih (redF a e), ih (redF 0 e)]
    simp only [redF]
    by_cases hc : e.type = "redemption" ∧ e.points ≠ 0 <;> simp [hc] <;> omega

theorem redeemRedeemedL_cons (e : HistoryEntry) (l : List HistoryEntry) :
    redeemRedeemedL (e :: l) = redF 0 e + redeemRedeemedL l := by
  simp only [redeemRedeemedL, List.foldl_cons]
  rw [foldl_redF_init]

/-- C8 (amended): the balance check and the redeemed append are *not* one
atomic conditional operation - under the lost-update interleaving both of
two concurrent calls can succeed (see the counterexample).  What does hold
is the serialized behaviour: when the second call's read phase runs after
the first call's write phase, and the balance suffices for only one
redemption, the second call fails with the insufficient-points error. -/
theorem c8_issue_serialized_amended (kv : KV) (email rewardId nowIso : String)
    (expiresInt : Int) (code1 code2 : String) (rw : Reward)
    (hne : ¬ (email = "" ∨ rewardId = ""))
    (hrw : kv.rewards ("reward:" ++ rewardId) = some rw)
    (hactive : rw.status = "active")
    (hfor : rw.availableFor = [])
    (hcost : 0 < parseIntOr rw.pointsCost 0)
    (havail : parseIntOr rw.pointsCost 0 ≤
      redeemAvailable kv (jsToLower (jsTrim email)) email)
    (hlt : (redeemScan kv (jsToLower (jsTrim email)) email).earned -
      redeemRedeemed kv (jsToLower (jsTrim email)) <
      2 * parseIntOr rw.pointsCost 0) :
    (redeemHandler kv email rewardId nowIso expiresInt code1).1 =
      .success code1 (parseIntOr rw.pointsCost 0)
        (redeemAvailable kv (jsToLower (jsTrim email)) email -
          parseIntOr rw.pointsCost 0) ∧
    (redeemHandler (redeemHandler kv email rewardId nowIso expiresInt code1).2
        email rewardId nowIso expiresInt code2).1 =
      .insufficientPoints (parseIntOr rw.pointsCost 0)
        (max 0 ((redeemScan kv (jsToLower (jsTrim email)) email).earned -
          (parseIntOr rw.pointsCost 0 +
            redeemRedeemed kv (jsToLower (jsTrim email))))) ∧
    max 0 ((redeemScan kv (jsToLower (jsTrim email)) email).earned -
        (parseIntOr rw.pointsCost 0 +
          redeemRedeemed kv (jsToLower (jsTrim email)))) <
      parseIntOr rw.pointsCost 0 := by
  have hnotlt : ¬ (redeemAvailable kv (jsToLower (jsTrim email)) email <
      parseIntOr rw.pointsCost 0) := not_lt.mpr havail
  have h1 : redeemDecide kv email rewardId =
      .go (parseIntOr rw.pointsCost 0) rw
        (redeemAvailable kv (jsToLower (jsTrim email)) email) := by
    simp [redeemDecide, hne, hrw, hactive, hnotlt, hfor]
  have hfst : redeemHandler kv email rewardId nowIso expiresInt code1 =
      (.success code1 (parseIntOr rw.pointsCost 0)
          (redeemAvailable kv (jsToLower (jsTrim email)) email -
            parseIntOr rw.pointsCost 0),
        redeemCommit kv email rewardId nowIso expiresInt code1
          (parseIntOr rw.pointsCost 0) rw) := by
    simp [redeemHandler, h1]
  have hER : parseIntOr rw.pointsCost 0 ≤
      (redeemScan kv (jsToLower (jsTrim email)) email).earned -
        redeemRedeemed kv (jsToLower (jsTrim email)) := by
    unfold redeemAvailable at havail
    rcases le_total 0 ((redeemScan kv (jsToLower (jsTrim email)) email).earned -
        redeemRedeemed kv (jsToLower (jsTrim email))) with h | h
    · rwa [max_eq_right h] at havail
    · rw [max_eq_left h] at havail
      omega
  have h2lt : max 0 ((redeemScan kv (jsToLower (jsTrim email)) email).earned -
      (parseIntOr rw.pointsCost 0 +
        redeemRedeemed kv (jsToLower (jsTrim email)))) <
      parseIntOr rw.pointsCost 0 := by
    rcases le_total 0 ((redeemScan kv (jsToLower (jsTrim email)) email).earned -
        (parseIntOr rw.pointsCost 0 +
          redeemRedeemed kv (jsToLower (jsTrim email)))) with h | h
    · rw [max_eq_right h]
      omega
    · rw [max_eq_left h]
      omega
  obtain ⟨rw', hrw', hst', hpc', haf'⟩ :=
    redeemCommit_reward_lookup kv email rewardId nowIso expiresInt code1
      (parseIntOr rw.pointsCost 0) rw hrw
  have hred1 : redeemRedeemed
      (redeemCommit kv email rewardId nowIso expiresInt code1
        (parseIntOr rw.pointsCost 0) rw) (jsToLower (jsTrim email)) =
      parseIntOr rw.pointsCost 0 +
        redeemRedeemed kv (jsToLower (jsTrim email)) := by
    unfold redeemRedeemed
    rw [redeemCommit_history, redeemRedeemedL_cons]
    have : parseIntOr rw.pointsCost 0 ≠ 0 := by omega
    simp [redF, this]
  have havail1 : redeemAvailable
      (redeemCommit kv email rewardId nowIso expiresInt code1
        (parseIntOr rw.pointsCost 0) rw) (jsToLower (jsTrim email)) email =
      max 0 ((redeemScan kv (jsToLower (jsTrim email)) email).earned -
        (parseIntOr rw.pointsCost 0 +
          redeemRedeemed kv (jsToLower (jsTrim email)))) := by
    unfold redeemAvailable
    rw [redeemScan_commit, hred1]
  have hstatus' : rw'.status = "active" := hst'.trans hactive
  have h2ltA : redeemAvailable
      (redeemCommit kv email rewardId nowIso expiresInt code1
        (parseIntOr rw.pointsCost 0) rw) (jsToLower (jsTrim email)) email <
      parseIntOr rw'.pointsCost 0 := by
    rw [havail1, hpc']
    exact h2lt
  have hd2 : redeemDecide
      (redeemCommit kv email rewardId nowIso expiresInt code1
        (parseIntOr rw.pointsCost 0) rw) email rewardId =
      .fail (.insufficientPoints (parseIntOr rw'.pointsCost 0)
        (redeemAvailable
          (redeemCommit kv email rewardId nowIso expiresInt code1
            (parseIntOr rw.pointsCost 0) rw) (jsToLower (jsTrim email)) email)) := by
    simp [redeemDecide, hne, hrw', hstatus', h2ltA]
  refine ⟨by rw [hfst], ?_, h2lt⟩
  rw [hfst]
  simp only [redeemHandler, hd2]
  rw [havail1, hpc']

/-- Witness for the amended C8 at the concrete 20-point/15-cost store. -/
theorem c8_issue_serialized_amended_witness :
    (redeemHandler c8Store "a@x" "r1" "T" 99 "C1").1 = .success "C1" 15 5 ∧
    (redeemHandler (redeemHandler c8Store "a@x" "r1" "T" 99 "C1").2
        "a@x" "r1" "T" 99 "C2").1 = .insufficientPoints 15 5 := by
  obtain ⟨h1, h2, h3⟩ := c8_issue_serialized_amended c8Store "a@x" "r1" "T" 99
    "C1" "C2" c8Reward (by decide) (by decide) rfl rfl (by decide) (by decide)
    (by decide)
  exact ⟨h1.trans (by decide), h2.trans (by decide)⟩

theorem parseIntOr_some_zero (v : Int) : parseIntOr (some v) 0 = v := by
  by_cases h : v = 0 <;> simp [parseIntOr, h]

theorem partnerF_eq (kv : KV) (email : String) (acc : Int) (p : String) :
    partnerF kv email acc p =
      acc + (if (kv.sets ("partner:" ++ p)).contains email then recPointsOf kv email else 0) := by
  unfold partnerF recPointsOf
  by_cases hm : (kv.sets ("partner:" ++ p)).contains email = true
  · simp only [hm, if_true]
    cases hq : kv.qr ("qr:email:" ++ email) with
    | none => simp
    | some record =>
      by_cases hv : record.visited = "true" <;> simp [hv]
  · have hm' : email ∉ kv.sets ("partner:" ++ p) := by simpa using hm
    simp [hm']

theorem foldPartners_eq (kv : KV) (email : String) (l : List String) (a : Int) :
    l.foldl (partnerF kv email) a =
      a + ((l.filter (fun p => (kv.sets ("partner:" ++ p)).contains email)).length : Int) *
        recPointsOf kv email := by
  induction l generalizing a with
  | nil => simp
  | cons p t ih =>
    by_cases hm : (kv.sets ("partner:" ++ p)).contains email = true
    · rw [List.foldl_cons, partnerF_eq, if_pos hm, ih,
        List.filter_cons_of_pos (by exact hm), List.length_cons]
      push_cast
      ring
    · rw [List.foldl_cons, partnerF_eq, if_neg hm, ih,
        List.filter_cons_of_neg (by exact hm)]
      ring

theorem getUserTotalPoints_formula (kv : KV) (email : String) :
    getUserTotalPoints kv email =
      (memberCount kv email : Int) * recPointsOf kv email +
        historySumL (kv.history ("points:history:" ++ email)) := by
  show List.foldl (partnerF kv email) 0 _ + List.foldl histF 0 _ = _
  rw [foldPartners_eq]
  simp only [zero_add, memberCount, historySumL]

/-- C10: `getUserTotalPoints` adds the single record's `pointsAwarded` once
per partner member set containing the email, plus every earned history entry
(minus redemptions); immediately after a first successful confirmation for
an account in exactly one member set, the reported `totalPointsNow` is twice
the points just awarded. -/
theorem c10_totalPoints_double_counts (kv : KV)
    (email partnerId nowIso confId : String) (r : QrRecord)
    (hrec : kv.qr ("qr:email:" ++ jsToLower (jsTrim email)) = some r)
    (hpid : recPid r = jsToLower (jsTrim partnerId))
    (hvis : r.visited ≠ "true")
    (hhist : kv.history ("points:history:" ++ jsToLower (jsTrim email)) = [])
    (hcount : memberCount kv (jsToLower (jsTrim email)) = 1) :
    (∀ kv' e', getUserTotalPoints kv' e' =
      (memberCount kv' e' : Int) * recPointsOf kv' e' +
        historySumL (kv'.history ("points:history:" ++ e'))) ∧
    (markVisited kv email partnerId none none nowIso confId).1 =
      .success (jsToLower (jsTrim email)) (jsToLower (jsTrim partnerId)) nowIso
        (computePoints (r.payload.getD {}))
        (2 * computePoints (r.payload.getD {})) := by
  refine ⟨fun kv' e' => getUserTotalPoints_formula kv' e', ?_⟩
  simp only [markVisited, hrec]
  rw [if_neg (fun h : recPid r ≠ jsToLower (jsTrim partnerId) => h hpid),
    if_neg hvis]
  rw [getUserTotalPoints_formula]
  simp [memberCount, recPointsOf, historySumL, histF, upd, hhist,
    parseIntOr_some_zero]
  have hcount' : (List.filter (fun p =>
      decide (jsToLower (jsTrim email) ∈ kv.sets ("partner:" ++ p)))
      (kv.sets "partners")).length = 1 := by
    simpa [memberCount] using hcount
  rw [hcount']
  norm_num
  ring

/-- Witness for C10: a 20-point first confirmation reports
`totalPointsNow = 40`. -/
theorem c10_totalPoints_double_counts_witness :
    (markVisited c10Store "a@x" "p1" none none "T" "cid").1 =
      .success "a@x" "p1" "T" 20 40 := by
  have h := (c10_totalPoints_double_counts c10Store "a@x" "p1" "T" "cid" c10Record
    (by decide) (by decide) (by decide) (by decide) (by decide)).2
  exact h.trans (by decide)

/-- C2 counterexample: one stored visited record worth 10 points, reachable
through two partners' fallback `partner:visits` keys, is counted once per
partner: the reported earned total is 20, not 10 - `pointsAwarded` is not
counted exactly once per distinct record. -/
theorem c2_balance_dedup_counterexample :
    (userPointsFixed c2Store "a@x").totalPoints = 20 ∧
    upfPointsOf c2Record = 10 ∧
    c2Store.qr "v:a@x:1" = some c2Record ∧
    (userPointsFixed c2Store "a@x").totalPoints ≠ upfPointsOf c2Record := by
  exact ⟨by decide, by decide, rfl, by decide⟩

theorem upfKnownFold_sublist (setsF : String → List String) (email eNorm : String) :
    ∀ (l : List String) (acc : List (String × String)),
      ∃ t, ((l.foldl
          (fun acc pid =>
            match upfVariantHit setsF email eNorm pid with
            | some v => acc ++ [(jsToLower pid, v)]
            | none => acc) acc).map Prod.fst) = acc.map Prod.fst ++ t ∧
        t.Sublist (l.map jsToLower) := by
  intro l
  induction l with
  | nil => exact fun acc => ⟨[], by simp, by simp⟩
  | cons pid rest ih =>
    intro acc
    cases h : upfVariantHit setsF email eNorm pid with
    | none =>
      obtain ⟨t, ht, hs⟩ := ih acc
      refine ⟨t, ?_, ?_⟩
      · simp only [List.foldl_cons, h]
        exact ht
      · simp only [List.map_cons]
        exact hs.cons (jsToLower pid)
    | some v =>
      obtain ⟨t, ht, hs⟩ := ih (acc ++ [(jsToLower pid, v)])
      refine ⟨jsToLower pid :: t, ?_, ?_⟩
      · simp only [List.foldl_cons, h]
        rw [ht]
        simp
      · simp only [List.map_cons]
        exact hs.cons₂ (jsToLower pid)

theorem upfKnownRegs_nodup (setsF : String → List String) (email eNorm : String) :
    ((upfKnownRegs setsF email eNorm).map Prod.fst).Nodup := by
  obtain ⟨t, ht, hs⟩ := upfKnownFold_sublist setsF email eNorm knownPartnerIds []
  unfold upfKnownRegs
  rw [ht]
  simp only [List.map_nil, List.nil_append]
  exact hs.nodup (by decide)

theorem upfRegisteredFold_nodup (kv : KV) (email eNorm : String) :
    ∀ (l : List String) (acc : List (String × String)),
      ((acc.map Prod.fst).Nodup) →
      (((l.foldl
          (fun acc pid =>
            let norm := jsToLower pid
            if (acc.map Prod.fst).contains norm then acc
            else
              let m := kv.sets ("partner:" ++ pid)
              if m.contains eNorm || m.contains email then acc ++ [(norm, pid)]
              else acc) acc).map Prod.fst)).Nodup := by
  intro l
  induction l with
  | nil => exact fun acc h => h
  | cons pid rest ih =>
    intro acc hacc
    simp only [List.foldl_cons]
    by_cases h1 : (acc.map Prod.fst).contains (jsToLower pid) = true
    · rw [if_pos h1]
      exact ih acc hacc
    · rw [if_neg h1]
      by_cases h2 : ((kv.sets ("partner:" ++ pid)).contains eNorm ||
          (kv.sets ("partner:" ++ pid)).contains email) = true
      · rw [if_pos h2]
        refine ih _ ?_
        have h1' : jsToLower pid ∉ acc.map Prod.fst := by simpa using h1
        simp [List.nodup_append, hacc, h1']
      · rw [if_neg h2]
        exact ih acc hacc

theorem upfRegistered_nodup (kv : KV) (email eNorm : String) :
    ((upfRegistered kv email eNorm).map Prod.fst).Nodup := by
  unfold upfRegistered
  exact upfRegisteredFold_nodup kv email eNorm (kv.sets "partners")
    (upfKnownRegs kv.sets email eNorm) (upfKnownRegs_nodup kv.sets email eNorm)

/-- C2 (amended): the balance formula holds - the returned
`availablePoints` is `max(0, totalPoints - redeemedPoints)` and is never
negative - and the registered-partner list is duplicate-free, so the
*primary* per-partner matching counts at most one record per partner; but
"exactly once per distinct record" fails in general, because the per-partner
fallback key probes carry no dedup across partners (see the
counterexample). -/
theorem c2_balance_formula_amended (kv : KV) (email : String) :
    (userPointsFixed kv email).availablePoints =
      max 0 ((userPointsFixed kv email).totalPoints -
        (userPointsFixed kv email).redeemedPoints) ∧
    0 ≤ (userPointsFixed kv email).availablePoints ∧
    ((upfRegistered kv email (jsToLower (jsTrim email))).map Prod.fst).Nodup :=
  ⟨rfl, le_max_left 0 _, upfRegistered_nodup kv email (jsToLower (jsTrim email))⟩
